import Mathlib

/-!
Shallow embedding of the `ethernet` crate (src/src/lib.rs).

Byte buffers are `List Nat`, each element standing for one `u8`
(theorems that need it carry the hypothesis that elements are < 256).
The scroll `Pread`/`Pwrite` plumbing is embedded explicitly: each
`gread`/`gwrite` of a component checks the remaining space against the
component size and either reads/writes at the running offset or fails.
Buffer mutation on the write side is modelled by explicit state passing:
a write returns the new buffer together with the scroll result, so the
partly written buffer is observable on failure, exactly as for a Rust
`&mut [u8]`.

External collaborators, modelled from the spec (their crates are not part
of this repository):
- `mac_parser::MACAddress` is a 6 byte value with exact fixed-size
  decode/encode, infallible on exactly 6 bytes: modelled as the list of
  its 6 bytes, read and written verbatim.
- `ether_type::EtherType` maps a 16 bit big-endian value to a protocol
  identifier and back; `from_bits`/`into_bits` are mutually inverse total
  functions on the 16 bit domain, so the type is modelled by its raw
  16 bit value and both conversions are the identity.
-/

/-- Error conditions of the scroll results, abstracted to the taxonomy the
crate exposes: `TooShort` stands for the read-side length failures of
scroll (`BadOffset` on an out-of-range read offset, `TooBig` on a read
past the end), `NoBody` for the explicit
`BadInput ("Ethernet frame has no body.")` raised by the frame decoder,
and `BufferTooShort` for the write-side length failures of scroll
(`BadOffset`, `TooBig` on writes). -/
inductive ScrollError where
  | TooShort
  | NoBody
  | BufferTooShort
deriving DecidableEq

/-- Decidable equality of scroll results, so that concrete runs of the
codec can be checked by evaluation. -/
instance instDecEqExcept {ε α : Type} [DecidableEq ε] [DecidableEq α] :
    DecidableEq (Except ε α) := fun x y =>
  match x, y with
  | .ok a, .ok b =>
    match decEq a b with
    | .isTrue h => .isTrue (h ▸ rfl)
    | .isFalse h => .isFalse fun hc => h (Except.ok.inj hc)
  | .error a, .error b =>
    match decEq a b with
    | .isTrue h => .isTrue (h ▸ rfl)
    | .isFalse h => .isFalse fun hc => h (Except.error.inj hc)
  | .ok _, .error _ => .isFalse fun hc => Except.noConfusion hc
  | .error _, .ok _ => .isFalse fun hc => Except.noConfusion hc

/-- Overwrite the bytes of `buf` starting at `off` with `data`, the
in-place slice assignment performed by a successful scroll write. -/
def writeAt (buf : List Nat) (off : Nat) (data : List Nat) : List Nat :=
  buf.take off ++ data ++ buf.drop (off + data.length)

/-- Reading a `MACAddress` at `off` (`from.gread`): succeeds iff 6 bytes
are available from `off`, returning the 6 bytes and the advance of 6. -/
def readMAC (buf : List Nat) (off : Nat) : Except ScrollError (List Nat × Nat) :=
  if off + 6 ≤ buf.length then .ok ((buf.drop off).take 6, 6) else .error .TooShort

/-- Reading a `u16` with `Endian::Big` at `off` (`from.gread_with`):
succeeds iff 2 bytes are available, combining them big-endian. -/
def readU16BE (buf : List Nat) (off : Nat) : Except ScrollError (Nat × Nat) :=
  if off + 2 ≤ buf.length then
    .ok ((buf.drop off).getD 0 0 * 256 + (buf.drop off).getD 1 0, 2)
  else .error .TooShort

/-- Reading a byte slice of length `size` at `off`
(`from.gread_with(&mut offset, size)` for `&[u8]`): the scroll `pread`
first rejects an offset at or past the end (`BadOffset`), then the slice
context rejects `size` larger than the remaining bytes (`TooBig`). -/
def readBytes (buf : List Nat) (off size : Nat) : Except ScrollError (List Nat × Nat) :=
  if buf.length ≤ off then .error .TooShort
  else if size ≤ buf.length - off then .ok ((buf.drop off).take size, size)
  else .error .TooShort

/-- Writing a `MACAddress` at `off` (`buf.gwrite`): all-or-nothing write
of the 6 bytes, failing when fewer than 6 bytes of room remain. -/
def writeMAC (m : List Nat) (buf : List Nat) (off : Nat) : List Nat × Except ScrollError Nat :=
  if off + 6 ≤ buf.length then (writeAt buf off m, .ok 6) else (buf, .error .BufferTooShort)

/-- Writing a `u16` with `Endian::Big` at `off` (`buf.gwrite_with`):
writes the two big-endian bytes of the low 16 bits of `v`. -/
def writeU16BE (v : Nat) (buf : List Nat) (off : Nat) : List Nat × Except ScrollError Nat :=
  if off + 2 ≤ buf.length then (writeAt buf off [v / 256 % 256, v % 256], .ok 2)
  else (buf, .error .BufferTooShort)

/-- Writing a byte slice at `off` (`buf.gwrite` for `&[u8]`): the scroll
`pwrite` first rejects an offset at or past the end (`BadOffset`), then
the slice write is all-or-nothing, failing when the data does not fit. -/
def writeBytes (data buf : List Nat) (off : Nat) : List Nat × Except ScrollError Nat :=
  if buf.length ≤ off then (buf, .error .BufferTooShort)
  else if data.length ≤ buf.length - off then (writeAt buf off data, .ok data.length)
  else (buf, .error .BufferTooShort)

/-- An EthernetII header as described in IEEE 802.3: `dst` and `src` are
the 6 byte MAC addresses, `ether_type` the raw 16 bit EtherType value
(see the module comment for the EtherType modelling). -/
structure Ethernet2Header where
  dst : List Nat
  src : List Nat
  ether_type : Nat
deriving DecidableEq

/-- The header length in bytes (`Ethernet2Header::HEADER_LENGTH`). -/
def Ethernet2Header.HEADER_LENGTH : Nat := 14

/-- Well-formedness that the Rust types enforce statically: the MAC
fields hold exactly 6 bytes each, `ether_type` is a 16 bit value. -/
def Ethernet2Header.WF (h : Ethernet2Header) : Prop :=
  h.dst.length = 6 ∧ h.src.length = 6 ∧ h.ether_type < 65536

/-- `Ethernet2Header::try_from_ctx`: reads `dst`, `src`, then the
big-endian EtherType, each `gread` advancing the offset by the bytes it
consumed, and returns the header with the final offset. -/
def Ethernet2Header.try_from_ctx (f : List Nat) : Except ScrollError (Ethernet2Header × Nat) :=
  match readMAC f 0 with
  | .error e => .error e
  | .ok (dst, n1) =>
    match readMAC f n1 with
    | .error e => .error e
    | .ok (src, n2) =>
      match readU16BE f (n1 + n2) with
      | .error e => .error e
      | .ok (et, n3) => .ok (⟨dst, src, et⟩, n1 + n2 + n3)

/-- `Ethernet2Header::from_bytes`: `bytes.pread(0).ok()`. The scroll
`pread` rejects offset 0 on an empty buffer (`BadOffset`) before calling
`try_from_ctx`; `.ok()` collapses every error to `none`. -/
def Ethernet2Header.from_bytes (bytes : List Nat) : Option Ethernet2Header :=
  if bytes.length = 0 then none
  else match Ethernet2Header.try_from_ctx bytes with
  | .ok (h, _) => some h
  | .error _ => none

/-- `Ethernet2Header::from_fixed_bytes`: `from_bytes(..).unwrap()` on a
`[u8; 14]`. The `getD` default models the panic branch of the unwrap; it
is proved unreachable for 14 byte inputs. -/
def Ethernet2Header.from_fixed_bytes (bytes : List Nat) : Ethernet2Header :=
  (Ethernet2Header.from_bytes bytes).getD ⟨[], [], 0⟩

/-- `Ethernet2Header::try_into_ctx`: writes `dst`, `src`, then the
big-endian EtherType, each `gwrite` advancing the offset, threading the
(possibly partly written) buffer through. -/
def Ethernet2Header.try_into_ctx (h : Ethernet2Header) (buf : List Nat) :
    List Nat × Except ScrollError Nat :=
  match writeMAC h.dst buf 0 with
  | (b1, .error e) => (b1, .error e)
  | (b1, .ok n1) =>
    match writeMAC h.src b1 n1 with
    | (b2, .error e) => (b2, .error e)
    | (b2, .ok n2) =>
      match writeU16BE h.ether_type b2 (n1 + n2) with
      | (b3, .error e) => (b3, .error e)
      | (b3, .ok n3) => (b3, .ok (n1 + n2 + n3))

/-- `Ethernet2Header::to_bytes`: `buf.pwrite(self, 0).ok().map(|_| ())`.
The scroll `pwrite` rejects offset 0 on an empty buffer (`BadOffset`)
before calling `try_into_ctx`; `.ok()` collapses errors to `none`. -/
def Ethernet2Header.to_bytes (h : Ethernet2Header) (buf : List Nat) :
    List Nat × Option Unit :=
  if buf.length = 0 then (buf, none)
  else match Ethernet2Header.try_into_ctx h buf with
  | (b, .ok _) => (b, some ())
  | (b, .error _) => (b, none)

/-- `Ethernet2Header::to_fixed_bytes`: writes into a fresh zeroed
14 byte buffer and unwraps; the unwrap is proved to never hit the error
branch, so the function simply returns the written buffer. -/
def Ethernet2Header.to_fixed_bytes (h : Ethernet2Header) : List Nat :=
  (Ethernet2Header.try_into_ctx h (List.replicate 14 0)).1

/-- `Ethernet2Frame`: a header together with a borrowed payload slice. -/
structure Ethernet2Frame where
  header : Ethernet2Header
  payload : List Nat
deriving DecidableEq

/-- `Ethernet2Frame::length_in_bytes`: header length plus payload length. -/
def Ethernet2Frame.length_in_bytes (f : Ethernet2Frame) : Nat :=
  Ethernet2Header.HEADER_LENGTH + f.payload.length

/-- `Ethernet2Frame::try_from_ctx`: rejects buffers of at most 14 bytes
with the `NoBody` bad-input error, then reads the header and takes the
remaining `len - 14` bytes as the payload. -/
def Ethernet2Frame.try_from_ctx (f : List Nat) : Except ScrollError (Ethernet2Frame × Nat) :=
  if f.length ≤ 14 then .error .NoBody
  else match Ethernet2Header.try_from_ctx f with
  | .error e => .error e
  | .ok (header, n1) =>
    match readBytes f n1 (f.length - Ethernet2Header.HEADER_LENGTH) with
    | .error e => .error e
    | .ok (payload, n2) => .ok (⟨header, payload⟩, n1 + n2)

/-- `Ethernet2Frame::from_bytes`: `bytes.pread(0).ok()`, with the scroll
`BadOffset` pre-check on an empty buffer. -/
def Ethernet2Frame.from_bytes (bytes : List Nat) : Option Ethernet2Frame :=
  if bytes.length = 0 then none
  else match Ethernet2Frame.try_from_ctx bytes with
  | .ok (fr, _) => some fr
  | .error _ => none

/-- `Ethernet2Frame::try_into_ctx`: writes the header, then the payload
slice, threading the buffer state. The `gwrite` of the header at offset 0
would also reject an empty buffer with `BadOffset`; that case already
fails identically inside the header write, so it is not duplicated. -/
def Ethernet2Frame.try_into_ctx (fr : Ethernet2Frame) (buf : List Nat) :
    List Nat × Except ScrollError Nat :=
  match Ethernet2Header.try_into_ctx fr.header buf with
  | (b1, .error e) => (b1, .error e)
  | (b1, .ok n1) =>
    match writeBytes fr.payload b1 n1 with
    | (b2, .error e) => (b2, .error e)
    | (b2, .ok n2) => (b2, .ok (n1 + n2))

/-- `Ethernet2Frame::to_bytes`: `buf.pwrite(self, 0).ok().map(|_| ())`. -/
def Ethernet2Frame.to_bytes (fr : Ethernet2Frame) (buf : List Nat) :
    List Nat × Option Unit :=
  if buf.length = 0 then (buf, none)
  else match Ethernet2Frame.try_into_ctx fr buf with
  | (b, .ok _) => (b, some ())
  | (b, .error _) => (b, none)

/-- `OwnedEthernet2Frame`: a header together with an owned payload. -/
structure OwnedEthernet2Frame where
  header : Ethernet2Header
  payload : List Nat
deriving DecidableEq

/-- `OwnedEthernet2Frame::try_from_ctx`: `from.gread::<Ethernet2Frame>`
(whose `pread` rejects offset 0 on an empty buffer with `BadOffset`),
then copies the borrowed payload into the owned frame. -/
def OwnedEthernet2Frame.try_from_ctx (f : List Nat) :
    Except ScrollError (OwnedEthernet2Frame × Nat) :=
  if f.length = 0 then .error .TooShort
  else match Ethernet2Frame.try_from_ctx f with
  | .error e => .error e
  | .ok (fr, off) => .ok (⟨fr.header, fr.payload⟩, off)

/-- `OwnedEthernet2Frame::try_into_ctx`: builds the transient borrowed
frame over the owned payload and delegates to `buf.pwrite(frame, 0)`
(whose pre-check rejects offset 0 on an empty buffer). -/
def OwnedEthernet2Frame.try_into_ctx (f : OwnedEthernet2Frame) (buf : List Nat) :
    List Nat × Except ScrollError Nat :=
  if buf.length = 0 then (buf, .error .BufferTooShort)
  else Ethernet2Frame.try_into_ctx ⟨f.header, f.payload⟩ buf

/-- The header a 14-or-longer buffer decodes to: the first 6 bytes, the
next 6 bytes, and the big-endian 16 bit value at offsets 12 and 13. -/
def decodedHeader (b : List Nat) : Ethernet2Header :=
  ⟨b.take 6, (b.drop 6).take 6, (b.drop 12).getD 0 0 * 256 + (b.drop 12).getD 1 0⟩

/-- The 14 byte wire image of a header: `dst`, `src`, then the two
big-endian EtherType bytes. -/
def Ethernet2Header.wire_bytes (h : Ethernet2Header) : List Nat :=
  h.dst ++ h.src ++ [h.ether_type / 256 % 256, h.ether_type % 256]

/-! ### Helper lemmas about `writeAt` -/

theorem writeAt_length (buf data : List Nat) (off : Nat)
    (h : off + data.length ≤ buf.length) : (writeAt buf off data).length = buf.length := by
  simp [writeAt]
  omega

theorem writeAt_length_ge (buf data : List Nat) (off : Nat)
    (h : off ≤ buf.length) : buf.length ≤ (writeAt buf off data).length := by
  simp [writeAt]
  omega

theorem writeAt_writeAt (buf d1 d2 : List Nat) (off : Nat) (h : off ≤ buf.length) :
    writeAt (writeAt buf off d1) (off + d1.length) d2 = writeAt buf off (d1 ++ d2) := by
  unfold writeAt
  have hassoc : buf.take off ++ d1 ++ buf.drop (off + d1.length)
      = (buf.take off ++ d1) ++ buf.drop (off + d1.length) := by
    simp [List.append_assoc]
  have hlen : (buf.take off ++ d1).length = off + d1.length := by
    simp
    omega
  rw [hassoc, ← hlen, List.take_left, List.drop_append, List.drop_drop, hlen]
  simp [List.append_assoc, Nat.add_assoc]

theorem writeAt_zero (buf data : List Nat) :
    writeAt buf 0 data = data ++ buf.drop data.length := by
  simp [writeAt]

/-! ### Evaluation lemmas for the scroll primitives -/

theorem readMAC_ok (buf : List Nat) (off : Nat) (h : off + 6 ≤ buf.length) :
    readMAC buf off = .ok ((buf.drop off).take 6, 6) := by
  unfold readMAC
  rw [if_pos h]

theorem readMAC_err (buf : List Nat) (off : Nat) (h : buf.length < off + 6) :
    readMAC buf off = .error .TooShort := by
  unfold readMAC
  rw [if_neg (by omega)]

theorem readU16BE_ok (buf : List Nat) (off : Nat) (h : off + 2 ≤ buf.length) :
    readU16BE buf off
      = .ok ((buf.drop off).getD 0 0 * 256 + (buf.drop off).getD 1 0, 2) := by
  unfold readU16BE
  rw [if_pos h]

theorem readU16BE_err (buf : List Nat) (off : Nat) (h : buf.length < off + 2) :
    readU16BE buf off = .error .TooShort := by
  unfold readU16BE
  rw [if_neg (by omega)]

theorem readBytes_ok (buf : List Nat) (off size : Nat) (h1 : off < buf.length)
    (h2 : size ≤ buf.length - off) :
    readBytes buf off size = .ok ((buf.drop off).take size, size) := by
  unfold readBytes
  rw [if_neg (by omega), if_pos h2]

theorem writeMAC_ok (m buf : List Nat) (off : Nat) (h : off + 6 ≤ buf.length) :
    writeMAC m buf off = (writeAt buf off m, .ok 6) := by
  unfold writeMAC
  rw [if_pos h]

theorem writeMAC_err (m buf : List Nat) (off : Nat) (h : buf.length < off + 6) :
    writeMAC m buf off = (buf, .error .BufferTooShort) := by
  unfold writeMAC
  rw [if_neg (by omega)]

theorem writeU16BE_ok (v : Nat) (buf : List Nat) (off : Nat) (h : off + 2 ≤ buf.length) :
    writeU16BE v buf off = (writeAt buf off [v / 256 % 256, v % 256], .ok 2) := by
  unfold writeU16BE
  rw [if_pos h]

theorem writeU16BE_err (v : Nat) (buf : List Nat) (off : Nat) (h : buf.length < off + 2) :
    writeU16BE v buf off = (buf, .error .BufferTooShort) := by
  unfold writeU16BE
  rw [if_neg (by omega)]

theorem writeBytes_ok (data buf : List Nat) (off : Nat) (h1 : off < buf.length)
    (h2 : data.length ≤ buf.length - off) :
    writeBytes data buf off = (writeAt buf off data, .ok data.length) := by
  unfold writeBytes
  rw [if_neg (by omega), if_pos h2]

theorem writeBytes_err (data buf : List Nat) (off : Nat)
    (h : buf.length ≤ off ∨ buf.length - off < data.length) :
    writeBytes data buf off = (buf, .error .BufferTooShort) := by
  unfold writeBytes
  rcases h with h | h
  · rw [if_pos h]
  · by_cases h0 : buf.length ≤ off
    · rw [if_pos h0]
    · rw [if_neg h0, if_neg (by omega)]

/-! ### Evaluation lemmas for the header codec -/

theorem headerTryFromCtx_ok (b : List Nat) (h : 14 ≤ b.length) :
    Ethernet2Header.try_from_ctx b = .ok (decodedHeader b, 14) := by
  unfold Ethernet2Header.try_from_ctx
  rw [readMAC_ok b 0 (by omega)]
  dsimp only
  rw [readMAC_ok b 6 (by omega)]
  dsimp only
  rw [readU16BE_ok b (6 + 6) (by omega)]
  dsimp only
  simp [decodedHeader]

theorem headerTryFromCtx_err (b : List Nat) (h : b.length < 14) :
    Ethernet2Header.try_from_ctx b = .error .TooShort := by
  unfold Ethernet2Header.try_from_ctx
  by_cases h6 : b.length < 6
  · rw [readMAC_err b 0 (by omega)]
  · by_cases h12 : b.length < 12
    · rw [readMAC_ok b 0 (by omega)]
      dsimp only
      rw [readMAC_err b 6 (by omega)]
    · rw [readMAC_ok b 0 (by omega)]
      dsimp only
      rw [readMAC_ok b 6 (by omega)]
      dsimp only
      rw [readU16BE_err b (6 + 6) (by omega)]

theorem wire_bytes_length (h : Ethernet2Header) (hd : h.dst.length = 6)
    (hs : h.src.length = 6) : h.wire_bytes.length = 14 := by
  simp [Ethernet2Header.wire_bytes, hd, hs]

theorem headerTryIntoCtx_ok (h : Ethernet2Header) (buf : List Nat)
    (hd : h.dst.length = 6) (hs : h.src.length = 6) (hb : 14 ≤ buf.length) :
    Ethernet2Header.try_into_ctx h buf = (writeAt buf 0 h.wire_bytes, .ok 14) := by
  have l1 : (writeAt buf 0 h.dst).length = buf.length :=
    writeAt_length buf h.dst 0 (by omega)
  have l2 : (writeAt (writeAt buf 0 h.dst) 6 h.src).length = buf.length := by
    rw [writeAt_length (writeAt buf 0 h.dst) h.src 6 (by rw [l1]; omega), l1]
  unfold Ethernet2Header.try_into_ctx
  rw [writeMAC_ok h.dst buf 0 (by omega)]
  dsimp only
  rw [writeMAC_ok h.src (writeAt buf 0 h.dst) 6 (by rw [l1]; omega)]
  dsimp only
  rw [writeU16BE_ok h.ether_type (writeAt (writeAt buf 0 h.dst) 6 h.src) (6 + 6)
    (by rw [l2]; omega)]
  dsimp only
  have c1 : writeAt (writeAt buf 0 h.dst) 6 h.src = writeAt buf 0 (h.dst ++ h.src) := by
    have hw := writeAt_writeAt buf h.dst h.src 0 (by omega)
    rw [hd] at hw
    simpa using hw
  have c2 : writeAt (writeAt buf 0 (h.dst ++ h.src)) (6 + 6)
      [h.ether_type / 256 % 256, h.ether_type % 256] = writeAt buf 0 h.wire_bytes := by
    have hw := writeAt_writeAt buf (h.dst ++ h.src)
      [h.ether_type / 256 % 256, h.ether_type % 256] 0 (by omega)
    rw [List.length_append, hd, hs] at hw
    simpa [Ethernet2Header.wire_bytes, List.append_assoc] using hw
  rw [c1, c2]

theorem headerTryIntoCtx_into_ok (h : Ethernet2Header) (buf : List Nat)
    (hb : 14 ≤ buf.length) : (Ethernet2Header.try_into_ctx h buf).2 = .ok 14 := by
  have l1 : buf.length ≤ (writeAt buf 0 h.dst).length :=
    writeAt_length_ge buf h.dst 0 (by omega)
  have l2 : buf.length ≤ (writeAt (writeAt buf 0 h.dst) 6 h.src).length :=
    le_trans l1 (writeAt_length_ge (writeAt buf 0 h.dst) h.src 6 (by omega))
  unfold Ethernet2Header.try_into_ctx
  rw [writeMAC_ok h.dst buf 0 (by omega)]
  dsimp only
  rw [writeMAC_ok h.src (writeAt buf 0 h.dst) 6 (by omega)]
  dsimp only
  rw [writeU16BE_ok h.ether_type (writeAt (writeAt buf 0 h.dst) 6 h.src) (6 + 6)
    (by omega)]

theorem headerTryIntoCtx_err (h : Ethernet2Header) (buf : List Nat)
    (hd : h.dst.length = 6) (hs : h.src.length = 6) (hb : buf.length < 14) :
    (Ethernet2Header.try_into_ctx h buf).2 = .error .BufferTooShort := by
  unfold Ethernet2Header.try_into_ctx
  by_cases h6 : buf.length < 6
  · rw [writeMAC_err h.dst buf 0 (by omega)]
  · have l1 : (writeAt buf 0 h.dst).length = buf.length :=
      writeAt_length buf h.dst 0 (by omega)
    by_cases h12 : buf.length < 12
    · rw [writeMAC_ok h.dst buf 0 (by omega)]
      dsimp only
      rw [writeMAC_err h.src (writeAt buf 0 h.dst) 6 (by omega)]
    · have l2 : (writeAt (writeAt buf 0 h.dst) 6 h.src).length = buf.length := by
        rw [writeAt_length (writeAt buf 0 h.dst) h.src 6 (by omega), l1]
      rw [writeMAC_ok h.dst buf 0 (by omega)]
      dsimp only
      rw [writeMAC_ok h.src (writeAt buf 0 h.dst) 6 (by omega)]
      dsimp only
      rw [writeU16BE_err h.ether_type (writeAt (writeAt buf 0 h.dst) 6 h.src) (6 + 6)
        (by omega)]

/-! ### Evaluation lemmas for the frame codec -/

theorem frameTryFromCtx_noBody (b : List Nat) (h : b.length ≤ 14) :
    Ethernet2Frame.try_from_ctx b = .error .NoBody := by
  unfold Ethernet2Frame.try_from_ctx
  rw [if_pos h]

theorem frameTryFromCtx_ok (b : List Nat) (h : 14 < b.length) :
    Ethernet2Frame.try_from_ctx b = .ok (⟨decodedHeader b, b.drop 14⟩, b.length) := by
  unfold Ethernet2Frame.try_from_ctx
  rw [if_neg (by omega), headerTryFromCtx_ok b (by omega)]
  dsimp only [Ethernet2Header.HEADER_LENGTH]
  rw [readBytes_ok b 14 (b.length - 14) (by omega) (by omega)]
  dsimp only
  have ht : (b.drop 14).take (b.length - 14) = b.drop 14 :=
    List.take_of_length_le (by simp)
  have hn : 14 + (b.length - 14) = b.length := by omega
  rw [ht, hn]

theorem frameTryIntoCtx_ok (h : Ethernet2Header) (p buf : List Nat)
    (hd : h.dst.length = 6) (hs : h.src.length = 6)
    (h1 : 14 + p.length ≤ buf.length) (h2 : 14 < buf.length) :
    Ethernet2Frame.try_into_ctx ⟨h, p⟩ buf
      = (writeAt buf 0 (h.wire_bytes ++ p), .ok (14 + p.length)) := by
  unfold Ethernet2Frame.try_into_ctx
  dsimp only
  rw [headerTryIntoCtx_ok h buf hd hs (by omega)]
  dsimp only
  have lw : (writeAt buf 0 h.wire_bytes).length = buf.length :=
    writeAt_length buf h.wire_bytes 0 (by rw [wire_bytes_length h hd hs]; omega)
  rw [writeBytes_ok p (writeAt buf 0 h.wire_bytes) 14 (by omega) (by omega)]
  dsimp only
  have hc := writeAt_writeAt buf h.wire_bytes p 0 (by omega)
  rw [wire_bytes_length h hd hs] at hc
  have hc2 : writeAt (writeAt buf 0 h.wire_bytes) 14 p = writeAt buf 0 (h.wire_bytes ++ p) := by
    simpa using hc
  rw [hc2]

theorem frameTryIntoCtx_err (h : Ethernet2Header) (p buf : List Nat)
    (hd : h.dst.length = 6) (hs : h.src.length = 6)
    (hb : buf.length < 14 + p.length) :
    (Ethernet2Frame.try_into_ctx ⟨h, p⟩ buf).2 = .error .BufferTooShort := by
  unfold Ethernet2Frame.try_into_ctx
  dsimp only
  by_cases h14 : buf.length < 14
  · rcases hmatch : Ethernet2Header.try_into_ctx h buf with ⟨b1, r⟩
    have := headerTryIntoCtx_err h buf hd hs h14
    rw [hmatch] at this
    dsimp only at this
    rw [this]
  · rw [headerTryIntoCtx_ok h buf hd hs (by omega)]
    dsimp only
    have lw : (writeAt buf 0 h.wire_bytes).length = buf.length :=
      writeAt_length buf h.wire_bytes 0 (by rw [wire_bytes_length h hd hs]; omega)
    rw [writeBytes_err p (writeAt buf 0 h.wire_bytes) 14 (by omega)]

/-! ### Reassembly: the wire image of a decoded header is the 14 byte prefix -/

theorem decodedHeader_dst_length (b : List Nat) (h : 14 ≤ b.length) :
    (decodedHeader b).dst.length = 6 := by
  simp [decodedHeader]
  omega

theorem decodedHeader_src_length (b : List Nat) (h : 14 ≤ b.length) :
    (decodedHeader b).src.length = 6 := by
  simp [decodedHeader]
  omega

theorem wire_bytes_decodedHeader (b : List Nat) (h : 14 ≤ b.length)
    (hb : ∀ x ∈ b, x < 256) : (decodedHeader b).wire_bytes = b.take 14 := by
  have h12 : 12 < b.length := by omega
  have h13 : 13 < b.length := by omega
  have hd12 : b.drop 12 = b[12] :: b[13] :: b.drop 14 := by
    rw [List.drop_eq_getElem_cons h12, List.drop_eq_getElem_cons h13]
  have hx : (b.drop 12).getD 0 0 = b[12] := by
    rw [hd12]
    rfl
  have hy : (b.drop 12).getD 1 0 = b[13] := by
    rw [hd12]
    rfl
  have hxlt : b[12] < 256 := hb _ (List.getElem_mem h12)
  have hylt : b[13] < 256 := hb _ (List.getElem_mem h13)
  have he1 : (b[12] * 256 + b[13]) / 256 % 256 = b[12] := by omega
  have he2 : (b[12] * 256 + b[13]) % 256 = b[13] := by omega
  have t2 : (b.drop 12).take 2 = [b[12], b[13]] := by
    rw [hd12]
    rfl
  have t1 : b.take 14 = b.take 12 ++ [b[12], b[13]] := by
    have := List.take_add b 12 2
    rw [t2] at this
    simpa using this
  have t0 : b.take 12 = b.take 6 ++ (b.drop 6).take 6 := by
    simpa using List.take_add b 6 6
  unfold Ethernet2Header.wire_bytes decodedHeader
  dsimp only
  rw [hx, hy, he1, he2, t1, t0]

theorem decodedHeader_take (b : List Nat) : decodedHeader (b.take 14) = decodedHeader b := by
  unfold decodedHeader
  simp only [Ethernet2Header.mk.injEq]
  refine ⟨?_, ?_, ?_⟩
  · simp [List.take_take]
  · simp [List.drop_take, List.take_take]
  · simp [List.drop_take, List.getD_eq_getElem?_getD, List.getElem?_take_of_lt]

/-! ### The claims -/

/-- C5: for every buffer of at least 14 bytes, header decode succeeds,
consumes exactly 14 bytes, and agrees with the decode of the 14 byte
prefix, so no byte at offset 14 or beyond influences the result. -/
theorem header_decode_ignores_tail (b : List Nat) (h : 14 ≤ b.length) :
    Ethernet2Header.try_from_ctx b = .ok (decodedHeader b, 14)
    ∧ Ethernet2Header.try_from_ctx (b.take 14) = .ok (decodedHeader b, 14) := by
  refine ⟨headerTryFromCtx_ok b h, ?_⟩
  rw [headerTryFromCtx_ok (b.take 14) (by simp; omega), decodedHeader_take]

/-- Witness for C5 at the 16 byte example buffer of the spec. -/
theorem header_decode_ignores_tail_witness :
    14 ≤ ([0, 128, 65, 255, 240, 13, 0, 128, 65, 186, 190, 255, 134, 221, 170,
        187] : List Nat).length
    ∧ (Ethernet2Header.try_from_ctx
          [0, 128, 65, 255, 240, 13, 0, 128, 65, 186, 190, 255, 134, 221, 170, 187]
        = .ok (decodedHeader
            [0, 128, 65, 255, 240, 13, 0, 128, 65, 186, 190, 255, 134, 221, 170, 187], 14)
      ∧ Ethernet2Header.try_from_ctx
          (([0, 128, 65, 255, 240, 13, 0, 128, 65, 186, 190, 255, 134, 221, 170,
            187] : List Nat).take 14)
        = .ok (decodedHeader
            [0, 128, 65, 255, 240, 13, 0, 128, 65, 186, 190, 255, 134, 221, 170, 187], 14)) :=
  ⟨by decide, header_decode_ignores_tail _ (by decide)⟩

/-- C4: header decode via `from_bytes` fails (returns `none`, the
TooShort condition) exactly when fewer than 14 bytes are given; at the
`try_from_ctx` level the failure is the `TooShort` error exactly when
fewer than 14 bytes are given, and every buffer of at least 14 bytes
decodes successfully whatever its contents. -/
theorem header_decode_length_boundary (b : List Nat) :
    (Ethernet2Header.from_bytes b = none ↔ b.length < 14)
    ∧ (Ethernet2Header.try_from_ctx b = .error .TooShort ↔ b.length < 14)
    ∧ (14 ≤ b.length → Ethernet2Header.from_bytes b = some (decodedHeader b)) := by
  by_cases h : 14 ≤ b.length
  · have hok : Ethernet2Header.from_bytes b = some (decodedHeader b) := by
      unfold Ethernet2Header.from_bytes
      rw [if_neg (by omega), headerTryFromCtx_ok b h]
    refine ⟨?_, ?_, fun _ => hok⟩
    · rw [hok]
      simp
      omega
    · rw [headerTryFromCtx_ok b h]
      simp
      omega
  · have hlt : b.length < 14 := by omega
    have herr := headerTryFromCtx_err b hlt
    refine ⟨?_, ?_, fun hc => absurd hc h⟩
    · unfold Ethernet2Header.from_bytes
      by_cases h0 : b.length = 0
      · rw [if_pos h0]
        simp
        omega
      · rw [if_neg h0, herr]
        simp
        omega
    · rw [herr]
      simp
      omega

/-- Witness for C4: a 13 byte buffer fails, a 14 byte buffer succeeds. -/
theorem header_decode_length_boundary_witness :
    Ethernet2Header.from_bytes [1, 2, 3, 4, 5, 6, 7, 8, 9, 10, 11, 12, 13] = none
    ∧ Ethernet2Header.from_bytes
        [0, 128, 65, 255, 240, 13, 0, 128, 65, 186, 190, 255, 134, 221]
      = some (decodedHeader
          [0, 128, 65, 255, 240, 13, 0, 128, 65, 186, 190, 255, 134, 221]) :=
  ⟨(header_decode_length_boundary [1, 2, 3, 4, 5, 6, 7, 8, 9, 10, 11, 12, 13]).1.mpr
      (by decide),
    (header_decode_length_boundary
      [0, 128, 65, 255, 240, 13, 0, 128, 65, 186, 190, 255, 134, 221]).2.2 (by decide)⟩

/-- C9: writing a header into the fresh zeroed 14 byte buffer of
`to_fixed_bytes` always succeeds (the internal unwrap is unreachable),
and `from_bytes` on any 14 byte input always returns a header, so
`from_fixed_bytes` never hits its unwrap either. -/
theorem encode_fixed_total :
    (∀ h : Ethernet2Header,
        (Ethernet2Header.try_into_ctx h (List.replicate 14 0)).2 = .ok 14)
    ∧ ∀ b : List Nat, b.length = 14 →
        Ethernet2Header.from_bytes b = some (decodedHeader b)
        ∧ Ethernet2Header.from_fixed_bytes b = decodedHeader b := by
  constructor
  · intro h
    exact headerTryIntoCtx_into_ok h (List.replicate 14 0) (by simp)
  · intro b hb
    have hok : Ethernet2Header.from_bytes b = some (decodedHeader b) := by
      unfold Ethernet2Header.from_bytes
      rw [if_neg (by omega), headerTryFromCtx_ok b (by omega)]
    refine ⟨hok, ?_⟩
    unfold Ethernet2Header.from_fixed_bytes
    rw [hok]
    rfl

/-- Witness for C9 at a concrete header and the 14 byte example buffer. -/
theorem encode_fixed_total_witness :
    (Ethernet2Header.try_into_ctx
        ⟨[0, 128, 65, 255, 240, 13], [0, 128, 65, 186, 190, 255], 34525⟩
        (List.replicate 14 0)).2 = .ok 14
    ∧ (Ethernet2Header.from_bytes
          [0, 128, 65, 255, 240, 13, 0, 128, 65, 186, 190, 255, 134, 221]
        = some (decodedHeader
            [0, 128, 65, 255, 240, 13, 0, 128, 65, 186, 190, 255, 134, 221])
      ∧ Ethernet2Header.from_fixed_bytes
          [0, 128, 65, 255, 240, 13, 0, 128, 65, 186, 190, 255, 134, 221]
        = decodedHeader [0, 128, 65, 255, 240, 13, 0, 128, 65, 186, 190, 255, 134, 221]) :=
  ⟨encode_fixed_total.1 ⟨[0, 128, 65, 255, 240, 13], [0, 128, 65, 186, 190, 255], 34525⟩,
    encode_fixed_total.2 [0, 128, 65, 255, 240, 13, 0, 128, 65, 186, 190, 255, 134, 221]
      (by decide)⟩

/-- C2: every 14 byte buffer of bytes decodes to a header, and
re-encoding that header via `to_fixed_bytes` (also through
`from_fixed_bytes`) reproduces the buffer byte for byte. -/
theorem header_roundtrip (b : List Nat) (h1 : b.length = 14) (h2 : ∀ x ∈ b, x < 256) :
    Ethernet2Header.from_bytes b = some (decodedHeader b)
    ∧ Ethernet2Header.to_fixed_bytes (decodedHeader b) = b
    ∧ Ethernet2Header.to_fixed_bytes (Ethernet2Header.from_fixed_bytes b) = b := by
  have hfb : Ethernet2Header.from_bytes b = some (decodedHeader b) := by
    unfold Ethernet2Header.from_bytes
    rw [if_neg (by omega), headerTryFromCtx_ok b (by omega)]
  have hff : Ethernet2Header.from_fixed_bytes b = decodedHeader b := by
    unfold Ethernet2Header.from_fixed_bytes
    rw [hfb]
    rfl
  have htf : Ethernet2Header.to_fixed_bytes (decodedHeader b) = b := by
    unfold Ethernet2Header.to_fixed_bytes
    rw [headerTryIntoCtx_ok (decodedHeader b) (List.replicate 14 0)
      (decodedHeader_dst_length b (by omega)) (decodedHeader_src_length b (by omega))
      (by simp)]
    dsimp only
    rw [writeAt_zero, wire_bytes_decodedHeader b (by omega) h2]
    have hUt : b.take 14 = b := List.take_of_length_le (by omega)
    rw [hUt, h1]
    simp
  exact ⟨hfb, htf, by rw [hff, htf]⟩

/-- Witness for C2 at the 14 byte example buffer of the spec. -/
theorem header_roundtrip_witness :
    ([0, 128, 65, 255, 240, 13, 0, 128, 65, 186, 190, 255, 134, 221] : List Nat).length = 14
    ∧ (Ethernet2Header.from_bytes
          [0, 128, 65, 255, 240, 13, 0, 128, 65, 186, 190, 255, 134, 221]
        = some (decodedHeader
            [0, 128, 65, 255, 240, 13, 0, 128, 65, 186, 190, 255, 134, 221])
      ∧ Ethernet2Header.to_fixed_bytes
          (decodedHeader [0, 128, 65, 255, 240, 13, 0, 128, 65, 186, 190, 255, 134, 221])
        = [0, 128, 65, 255, 240, 13, 0, 128, 65, 186, 190, 255, 134, 221]
      ∧ Ethernet2Header.to_fixed_bytes
          (Ethernet2Header.from_fixed_bytes
            [0, 128, 65, 255, 240, 13, 0, 128, 65, 186, 190, 255, 134, 221])
        = [0, 128, 65, 255, 240, 13, 0, 128, 65, 186, 190, 255, 134, 221]) :=
  ⟨by decide,
    header_roundtrip [0, 128, 65, 255, 240, 13, 0, 128, 65, 186, 190, 255, 134, 221]
      (by decide) (by decide)⟩

/-- C6: encoding a well-formed header writes exactly the wire layout:
the 6 `dst` bytes at offsets 0 to 5, the 6 `src` bytes at offsets 6 to
11, and the big-endian EtherType bytes at offsets 12 and 13, 14 bytes in
total, both into a caller-supplied buffer and via `to_fixed_bytes`. -/
theorem header_encode_wire_layout (h : Ethernet2Header) (buf : List Nat)
    (hd : h.dst.length = 6) (hs : h.src.length = 6) (he : h.ether_type < 65536)
    (hb : 14 ≤ buf.length) :
    Ethernet2Header.try_into_ctx h buf
      = (h.dst ++ h.src ++ [h.ether_type / 256, h.ether_type % 256] ++ buf.drop 14, .ok 14)
    ∧ Ethernet2Header.to_fixed_bytes h
      = h.dst ++ h.src ++ [h.ether_type / 256, h.ether_type % 256] := by
  have hdiv : h.ether_type / 256 % 256 = h.ether_type / 256 := by omega
  have hw14 : h.wire_bytes.length = 14 := wire_bytes_length h hd hs
  have hwire : h.wire_bytes = h.dst ++ h.src ++ [h.ether_type / 256, h.ether_type % 256] := by
    unfold Ethernet2Header.wire_bytes
    rw [hdiv]
  constructor
  · rw [headerTryIntoCtx_ok h buf hd hs hb, writeAt_zero, hw14, hwire]
  · unfold Ethernet2Header.to_fixed_bytes
    rw [headerTryIntoCtx_ok h (List.replicate 14 0) hd hs (by simp)]
    dsimp only
    rw [writeAt_zero, hw14, hwire]
    simp

/-- Witness for C6 at a concrete header and an 18 byte buffer. -/
theorem header_encode_wire_layout_witness :
    (([1, 2, 3, 4, 5, 6] : List Nat).length = 6 ∧ ([7, 8, 9, 10, 11, 12] : List Nat).length = 6
      ∧ (34525 : Nat) < 65536 ∧ 14 ≤ (List.replicate 18 (0 : Nat)).length)
    ∧ (Ethernet2Header.try_into_ctx ⟨[1, 2, 3, 4, 5, 6], [7, 8, 9, 10, 11, 12], 34525⟩
          (List.replicate 18 0)
        = ([1, 2, 3, 4, 5, 6] ++ [7, 8, 9, 10, 11, 12] ++ [34525 / 256, 34525 % 256]
            ++ (List.replicate 18 (0 : Nat)).drop 14, .ok 14)
      ∧ Ethernet2Header.to_fixed_bytes ⟨[1, 2, 3, 4, 5, 6], [7, 8, 9, 10, 11, 12], 34525⟩
        = [1, 2, 3, 4, 5, 6] ++ [7, 8, 9, 10, 11, 12] ++ [34525 / 256, 34525 % 256]) :=
  ⟨⟨by decide, by decide, by decide, by decide⟩,
    header_encode_wire_layout ⟨[1, 2, 3, 4, 5, 6], [7, 8, 9, 10, 11, 12], 34525⟩
      (List.replicate 18 0) (by decide) (by decide) (by decide) (by decide)⟩

/-- C1: every byte buffer longer than 14 decodes to a borrowed frame
(the 14 byte header and the remaining payload, consuming the whole
buffer), and encoding that frame into any destination buffer of the same
length writes back exactly the original bytes, header then payload. -/
theorem frame_roundtrip (b dst : List Nat) (h1 : 14 < b.length)
    (h2 : ∀ x ∈ b, x < 256) (h3 : dst.length = b.length) :
    Ethernet2Frame.try_from_ctx b = .ok (⟨decodedHeader b, b.drop 14⟩, b.length)
    ∧ Ethernet2Frame.try_into_ctx ⟨decodedHeader b, b.drop 14⟩ dst = (b, .ok b.length) := by
  refine ⟨frameTryFromCtx_ok b h1, ?_⟩
  rw [frameTryIntoCtx_ok (decodedHeader b) (b.drop 14) dst
    (decodedHeader_dst_length b (by omega)) (decodedHeader_src_length b (by omega))
    (by simp; omega) (by omega)]
  rw [writeAt_zero, wire_bytes_decodedHeader b (by omega) h2, List.take_append_drop]
  have hdrop : dst.drop b.length = [] := List.drop_eq_nil_of_le (by omega)
  have hlen2 : 14 + (b.drop 14).length = b.length := by
    simp
    omega
  rw [hdrop, hlen2]
  simp

/-- Witness for C1 at the 16 byte example buffer of the spec, encoding
into a zeroed 16 byte destination. -/
theorem frame_roundtrip_witness :
    (14 < ([0, 128, 65, 255, 240, 13, 0, 128, 65, 186, 190, 255, 134, 221, 170,
        187] : List Nat).length
      ∧ (List.replicate 16 (0 : Nat)).length
          = ([0, 128, 65, 255, 240, 13, 0, 128, 65, 186, 190, 255, 134, 221, 170,
              187] : List Nat).length)
    ∧ (Ethernet2Frame.try_from_ctx
          [0, 128, 65, 255, 240, 13, 0, 128, 65, 186, 190, 255, 134, 221, 170, 187]
        = .ok (⟨decodedHeader
              [0, 128, 65, 255, 240, 13, 0, 128, 65, 186, 190, 255, 134, 221, 170, 187],
            ([0, 128, 65, 255, 240, 13, 0, 128, 65, 186, 190, 255, 134, 221, 170,
              187] : List Nat).drop 14⟩,
          ([0, 128, 65, 255, 240, 13, 0, 128, 65, 186, 190, 255, 134, 221, 170,
            187] : List Nat).length)
      ∧ Ethernet2Frame.try_into_ctx
          ⟨decodedHeader
              [0, 128, 65, 255, 240, 13, 0, 128, 65, 186, 190, 255, 134, 221, 170, 187],
            ([0, 128, 65, 255, 240, 13, 0, 128, 65, 186, 190, 255, 134, 221, 170,
              187] : List Nat).drop 14⟩ (List.replicate 16 0)
        = ([0, 128, 65, 255, 240, 13, 0, 128, 65, 186, 190, 255, 134, 221, 170, 187],
          .ok ([0, 128, 65, 255, 240, 13, 0, 128, 65, 186, 190, 255, 134, 221, 170,
            187] : List Nat).length)) :=
  ⟨⟨by decide, by decide⟩,
    frame_roundtrip
      [0, 128, 65, 255, 240, 13, 0, 128, 65, 186, 190, 255, 134, 221, 170, 187]
      (List.replicate 16 0) (by decide) (by decide) (by decide)⟩

/-- C3: borrowed frame decode fails with `NoBody` exactly when the
buffer has at most 14 bytes; any 15 byte buffer decodes successfully
with a single byte payload, the remainder after the header. -/
theorem frame_decode_min_length (b : List Nat) :
    (Ethernet2Frame.try_from_ctx b = .error .NoBody ↔ b.length ≤ 14)
    ∧ (b.length = 15 →
        Ethernet2Frame.try_from_ctx b = .ok (⟨decodedHeader b, b.drop 14⟩, 15)
        ∧ (b.drop 14).length = 1) := by
  constructor
  · constructor
    · intro hE
      by_contra hlen
      rw [frameTryFromCtx_ok b (by omega)] at hE
      exact absurd hE (by simp)
    · intro hle
      exact frameTryFromCtx_noBody b hle
  · intro h15
    constructor
    · have hok := frameTryFromCtx_ok b (by omega)
      rw [h15] at hok
      exact hok
    · simp [h15]

/-- Witness for C3: a 14 byte buffer fails with NoBody, a 15 byte buffer
decodes with a one byte payload. -/
theorem frame_decode_min_length_witness :
    Ethernet2Frame.try_from_ctx
        [0, 128, 65, 255, 240, 13, 0, 128, 65, 186, 190, 255, 134, 221]
      = .error .NoBody
    ∧ (Ethernet2Frame.try_from_ctx
          [0, 128, 65, 255, 240, 13, 0, 128, 65, 186, 190, 255, 134, 221, 170]
        = .ok (⟨decodedHeader
              [0, 128, 65, 255, 240, 13, 0, 128, 65, 186, 190, 255, 134, 221, 170],
            ([0, 128, 65, 255, 240, 13, 0, 128, 65, 186, 190, 255, 134, 221, 170]
              : List Nat).drop 14⟩, 15)
      ∧ (([0, 128, 65, 255, 240, 13, 0, 128, 65, 186, 190, 255, 134, 221, 170]
          : List Nat).drop 14).length = 1) :=
  ⟨(frame_decode_min_length
      [0, 128, 65, 255, 240, 13, 0, 128, 65, 186, 190, 255, 134, 221]).1.mpr (by decide),
    (frame_decode_min_length
      [0, 128, 65, 255, 240, 13, 0, 128, 65, 186, 190, 255, 134, 221, 170]).2 (by decide)⟩

/-- C10: when the destination holds at least `length_in_bytes` bytes, a
successful frame encode consumes exactly `14 + payload.length` bytes,
the written prefix is the header wire image followed by the payload, and
every destination byte at offset `14 + payload.length` and beyond is
unchanged. -/
theorem frame_encode_exact (f : Ethernet2Frame) (buf r : List Nat) (n : Nat)
    (hd : f.header.dst.length = 6) (hs : f.header.src.length = 6)
    (hlen : f.length_in_bytes ≤ buf.length)
    (henc : Ethernet2Frame.try_into_ctx f buf = (r, .ok n)) :
    n = 14 + f.payload.length
    ∧ r = f.header.wire_bytes ++ f.payload ++ buf.drop (14 + f.payload.length)
    ∧ r.drop (14 + f.payload.length) = buf.drop (14 + f.payload.length) := by
  rcases f with ⟨h, p⟩
  dsimp only at hd hs henc ⊢
  unfold Ethernet2Frame.length_in_bytes Ethernet2Header.HEADER_LENGTH at hlen
  dsimp only at hlen
  by_cases h14 : 14 < buf.length
  · rw [frameTryIntoCtx_ok h p buf hd hs (by omega) h14] at henc
    have hr : r = writeAt buf 0 (h.wire_bytes ++ p) := by
      have := congrArg Prod.fst henc
      simpa using this.symm
    have hn : n = 14 + p.length := by
      have := congrArg Prod.snd henc
      simp only at this
      exact (Except.ok.injEq _ _ |>.mp this).symm
    have hwl : (h.wire_bytes ++ p).length = 14 + p.length := by
      rw [List.length_append, wire_bytes_length h hd hs]
    have hrw : r = h.wire_bytes ++ p ++ buf.drop (14 + p.length) := by
      rw [hr, writeAt_zero, hwl]
    refine ⟨hn, hrw, ?_⟩
    rw [hrw, ← hwl, List.drop_left]
  · exfalso
    have herr : (Ethernet2Frame.try_into_ctx ⟨h, p⟩ buf).2 = .error .BufferTooShort := by
      unfold Ethernet2Frame.try_into_ctx
      dsimp only
      rw [headerTryIntoCtx_ok h buf hd hs (by omega)]
      dsimp only
      have lw : (writeAt buf 0 h.wire_bytes).length = buf.length :=
        writeAt_length buf h.wire_bytes 0 (by rw [wire_bytes_length h hd hs]; omega)
      rw [writeBytes_err p (writeAt buf 0 h.wire_bytes) 14 (by omega)]
    rw [henc] at herr
    dsimp only at herr
    exact Except.noConfusion herr

/-- Witness for C10 at a concrete frame and a 20 byte destination. -/
theorem frame_encode_exact_witness :
    ((([1, 2, 3, 4, 5, 6] : List Nat).length = 6
        ∧ ([7, 8, 9, 10, 11, 12] : List Nat).length = 6)
      ∧ Ethernet2Frame.length_in_bytes
            ⟨⟨[1, 2, 3, 4, 5, 6], [7, 8, 9, 10, 11, 12], 34525⟩, [170, 187]⟩
          ≤ (List.replicate 20 (0 : Nat)).length
      ∧ Ethernet2Frame.try_into_ctx
            ⟨⟨[1, 2, 3, 4, 5, 6], [7, 8, 9, 10, 11, 12], 34525⟩, [170, 187]⟩
            (List.replicate 20 0)
          = ([1, 2, 3, 4, 5, 6, 7, 8, 9, 10, 11, 12, 134, 221, 170, 187, 0, 0, 0, 0],
            .ok 16))
    ∧ ((16 : Nat) = 14 + ([170, 187] : List Nat).length
      ∧ ([1, 2, 3, 4, 5, 6, 7, 8, 9, 10, 11, 12, 134, 221, 170, 187, 0, 0, 0, 0]
            : List Nat)
          = (⟨[1, 2, 3, 4, 5, 6], [7, 8, 9, 10, 11, 12], 34525⟩
              : Ethernet2Header).wire_bytes ++ [170, 187]
            ++ (List.replicate 20 (0 : Nat)).drop (14 + ([170, 187] : List Nat).length)
      ∧ (([1, 2, 3, 4, 5, 6, 7, 8, 9, 10, 11, 12, 134, 221, 170, 187, 0, 0, 0, 0]
            : List Nat)).drop (14 + ([170, 187] : List Nat).length)
          = (List.replicate 20 (0 : Nat)).drop (14 + ([170, 187] : List Nat).length)) :=
  ⟨⟨⟨by decide, by decide⟩, by decide, by decide⟩,
    frame_encode_exact ⟨⟨[1, 2, 3, 4, 5, 6], [7, 8, 9, 10, 11, 12], 34525⟩, [170, 187]⟩
      (List.replicate 20 0)
      [1, 2, 3, 4, 5, 6, 7, 8, 9, 10, 11, 12, 134, 221, 170, 187, 0, 0, 0, 0] 16
      (by decide) (by decide) (by decide) (by decide)⟩

/-- C7 counterexample: encoding a 15 byte frame into a 14 byte zeroed
destination fails with `BufferTooShort`, yet the destination is left
changed: the whole 14 byte header was already written before the payload
write was rejected, so the buffer contents are not unchanged on failure. -/
theorem encode_short_counterexample :
    (List.replicate 14 (0 : Nat)).length
        < Ethernet2Frame.length_in_bytes
            ⟨⟨[0, 128, 65, 255, 240, 13], [0, 128, 65, 186, 190, 255], 34525⟩, [170]⟩
    ∧ (Ethernet2Frame.try_into_ctx
          ⟨⟨[0, 128, 65, 255, 240, 13], [0, 128, 65, 186, 190, 255], 34525⟩, [170]⟩
          (List.replicate 14 0)).2 = .error .BufferTooShort
    ∧ (Ethernet2Frame.try_into_ctx
          ⟨⟨[0, 128, 65, 255, 240, 13], [0, 128, 65, 186, 190, 255], 34525⟩, [170]⟩
          (List.replicate 14 0)).1 ≠ List.replicate 14 0 := by
  decide

/-- C7 as amended: encoding a well-formed frame into a destination
shorter than `length_in_bytes` (and a well-formed header into a
destination shorter than 14 bytes) fails with the `BufferTooShort`
condition and never reports success; components already written before
the failing one (for instance the full 14 byte header) may remain in the
destination, so only the failure report, not an unchanged buffer, is
guaranteed. -/
theorem encode_buffer_too_short (f : Ethernet2Frame) (h : Ethernet2Header)
    (buf bufh : List Nat)
    (hfd : f.header.dst.length = 6) (hfs : f.header.src.length = 6)
    (hhd : h.dst.length = 6) (hhs : h.src.length = 6)
    (h1 : buf.length < f.length_in_bytes) (h2 : bufh.length < 14) :
    (Ethernet2Frame.try_into_ctx f buf).2 = .error .BufferTooShort
    ∧ (Ethernet2Header.try_into_ctx h bufh).2 = .error .BufferTooShort := by
  constructor
  · rcases f with ⟨fh, fp⟩
    dsimp only at hfd hfs
    unfold Ethernet2Frame.length_in_bytes Ethernet2Header.HEADER_LENGTH at h1
    dsimp only at h1
    exact frameTryIntoCtx_err fh fp buf hfd hfs h1
  · exact headerTryIntoCtx_err h bufh hhd hhs h2

/-- Witness for the amended C7 at a concrete frame, header and short
buffers. -/
theorem encode_buffer_too_short_witness :
    ((List.replicate 14 (0 : Nat)).length
        < Ethernet2Frame.length_in_bytes
            ⟨⟨[0, 128, 65, 255, 240, 13], [0, 128, 65, 186, 190, 255], 34525⟩, [170]⟩
      ∧ (List.replicate 10 (0 : Nat)).length < 14)
    ∧ ((Ethernet2Frame.try_into_ctx
          ⟨⟨[0, 128, 65, 255, 240, 13], [0, 128, 65, 186, 190, 255], 34525⟩, [170]⟩
          (List.replicate 14 0)).2 = .error .BufferTooShort
      ∧ (Ethernet2Header.try_into_ctx
          ⟨[0, 128, 65, 255, 240, 13], [0, 128, 65, 186, 190, 255], 34525⟩
          (List.replicate 10 0)).2 = .error .BufferTooShort) :=
  ⟨⟨by decide, by decide⟩,
    encode_buffer_too_short
      ⟨⟨[0, 128, 65, 255, 240, 13], [0, 128, 65, 186, 190, 255], 34525⟩, [170]⟩
      ⟨[0, 128, 65, 255, 240, 13], [0, 128, 65, 186, 190, 255], 34525⟩
      (List.replicate 14 0) (List.replicate 10 0)
      (by decide) (by decide) (by decide) (by decide) (by decide) (by decide)⟩

/-- C8: owned frame decode succeeds exactly when borrowed frame decode
succeeds (both fail exactly on buffers of at most 14 bytes), on success
the owned header, payload and consumed offset equal the borrowed ones,
and owned frame encode returns exactly the same buffer state and result
as borrowed frame encode over the same header and payload, for every
destination buffer. -/
theorem owned_borrowed_equiv :
    (∀ b : List Nat,
        (OwnedEthernet2Frame.try_from_ctx b).isOk = (Ethernet2Frame.try_from_ctx b).isOk)
    ∧ (∀ (b : List Nat) (fr : Ethernet2Frame) (n : Nat) (ofr : OwnedEthernet2Frame)
        (m : Nat),
        Ethernet2Frame.try_from_ctx b = .ok (fr, n) →
        OwnedEthernet2Frame.try_from_ctx b = .ok (ofr, m) →
        ofr.header = fr.header ∧ ofr.payload = fr.payload ∧ m = n)
    ∧ ∀ (h : Ethernet2Header) (p buf : List Nat),
        OwnedEthernet2Frame.try_into_ctx ⟨h, p⟩ buf
          = Ethernet2Frame.try_into_ctx ⟨h, p⟩ buf := by
  refine ⟨?_, ?_, ?_⟩
  · intro b
    unfold OwnedEthernet2Frame.try_from_ctx
    by_cases h0 : b.length = 0
    · rw [if_pos h0, frameTryFromCtx_noBody b (by omega)]
      rfl
    · rw [if_neg h0]
      by_cases h14 : b.length ≤ 14
      · rw [frameTryFromCtx_noBody b h14]
        rfl
      · rw [frameTryFromCtx_ok b (by omega)]
        rfl
  · intro b fr n ofr m hfr hofr
    unfold OwnedEthernet2Frame.try_from_ctx at hofr
    by_cases h0 : b.length = 0
    · rw [if_pos h0] at hofr
      exact absurd hofr (by simp)
    · rw [if_neg h0, hfr] at hofr
      dsimp only at hofr
      simp only [Except.ok.injEq, Prod.mk.injEq] at hofr
      obtain ⟨hh, hm⟩ := hofr
      refine ⟨?_, ?_, hm.symm⟩
      · rw [← hh]
      · rw [← hh]
  · intro h p buf
    unfold OwnedEthernet2Frame.try_into_ctx
    by_cases h0 : buf.length = 0
    · rw [if_pos h0]
      have hbe : buf = [] := List.length_eq_zero.mp h0
      subst hbe
      unfold Ethernet2Frame.try_into_ctx Ethernet2Header.try_into_ctx
      dsimp only
      rw [writeMAC_err h.dst [] 0 (by simp)]
    · rw [if_neg h0]

/-- Witness for C8 at the 16 byte example buffer and a concrete encode. -/
theorem owned_borrowed_equiv_witness :
    (OwnedEthernet2Frame.try_from_ctx
          [0, 128, 65, 255, 240, 13, 0, 128, 65, 186, 190, 255, 134, 221, 170, 187]).isOk
      = (Ethernet2Frame.try_from_ctx
          [0, 128, 65, 255, 240, 13, 0, 128, 65, 186, 190, 255, 134, 221, 170, 187]).isOk
    ∧ ((⟨⟨[0, 128, 65, 255, 240, 13], [0, 128, 65, 186, 190, 255], 34525⟩, [170, 187]⟩
          : OwnedEthernet2Frame).header
          = (⟨⟨[0, 128, 65, 255, 240, 13], [0, 128, 65, 186, 190, 255], 34525⟩, [170, 187]⟩
              : Ethernet2Frame).header
      ∧ (⟨⟨[0, 128, 65, 255, 240, 13], [0, 128, 65, 186, 190, 255], 34525⟩, [170, 187]⟩
          : OwnedEthernet2Frame).payload
          = (⟨⟨[0, 128, 65, 255, 240, 13], [0, 128, 65, 186, 190, 255], 34525⟩, [170, 187]⟩
              : Ethernet2Frame).payload
      ∧ (16 : Nat) = 16)
    ∧ OwnedEthernet2Frame.try_into_ctx
        ⟨⟨[1, 2, 3, 4, 5, 6], [7, 8, 9, 10, 11, 12], 34525⟩, [170, 187]⟩
        (List.replicate 16 0)
      = Ethernet2Frame.try_into_ctx
        ⟨⟨[1, 2, 3, 4, 5, 6], [7, 8, 9, 10, 11, 12], 34525⟩, [170, 187]⟩
        (List.replicate 16 0) :=
  ⟨owned_borrowed_equiv.1
      [0, 128, 65, 255, 240, 13, 0, 128, 65, 186, 190, 255, 134, 221, 170, 187],
    owned_borrowed_equiv.2.1
      [0, 128, 65, 255, 240, 13, 0, 128, 65, 186, 190, 255, 134, 221, 170, 187]
      ⟨⟨[0, 128, 65, 255, 240, 13], [0, 128, 65, 186, 190, 255], 34525⟩, [170, 187]⟩ 16
      ⟨⟨[0, 128, 65, 255, 240, 13], [0, 128, 65, 186, 190, 255], 34525⟩, [170, 187]⟩ 16
      (by decide) (by decide),
    owned_borrowed_equiv.2.2 ⟨[1, 2, 3, 4, 5, 6], [7, 8, 9, 10, 11, 12], 34525⟩
      [170, 187] (List.replicate 16 0)⟩
